import Mathlib

/-!
Shallow embedding of the LLMScope ingestion and processing pipeline
(backend/app): the event data model, the pricing function, the ingest
endpoints, the Redis queue, the background worker with its retry/DLQ
ladder, and the store-write operation.

Conventions of the embedding:
* Python dicts with possibly-absent keys become structures with `Option`
  fields; `none` models "key absent from the dict" (and, where the code
  treats them identically via the `not in ... or ... is None` pattern,
  also an explicit JSON `null`).
* Python floats in the pricing table are modelled exactly as rationals;
  the pricing arithmetic of `calculate_cost` is carried out over `ℚ`.
* UUIDs, timestamps and JSON strings are modelled as `String`s; fresh
  UUIDs (`uuid.uuid4()`) and clock reads (`datetime.now`) are passed in
  as explicit parameters.
* I/O failure is modelled by explicit health parameters: a list of
  booleans consumed one per database write attempt, and boolean flags
  for the Redis transport on enqueue and on DLQ writes.
-/

/-- Worker/queue configuration, from `backend/app/config.py` (`Settings`).
Only the fields the pipeline logic reads are modelled; defaults are the
source defaults. -/
structure Settings where
  redis_queue_batch_size : Nat := 100
  worker_max_retries : Nat := 3
  worker_retry_backoff_base : ℚ := 2
  deriving Repr

/-- The module-level `settings = Settings()` instance (all defaults). -/
def settings : Settings := {}

/-- The static pricing table of `calculate_cost`
(`backend/app/core/metrics.py`), keyed by model string; each entry is
(prompt rate, completion rate) per 1000 tokens. -/
def pricing : List (String × ℚ × ℚ) :=
  [ ("gpt-4", (3/100, 6/100))
  , ("gpt-3.5-turbo", (15/10000, 2/1000))
  , ("claude-3-opus", (15/1000, 75/1000))
  , ("claude-3-sonnet", (3/1000, 15/1000)) ]

/-- `calculate_cost(model, prompt_tokens, completion_tokens)` from
`backend/app/core/metrics.py`: look the model up in the table (missing
models get zero rates) and charge per 1000 tokens. -/
def calculate_cost (model : String) (prompt_tokens completion_tokens : Nat) : ℚ :=
  let model_pricing := ((pricing.find? (fun p => p.1 == model)).map Prod.snd).getD (0, 0)
  let prompt_cost := ((prompt_tokens : ℚ) / 1000) * model_pricing.1
  let completion_cost := ((completion_tokens : ℚ) / 1000) * model_pricing.2
  prompt_cost + completion_cost

/-- An event dict as it flows from the ingest handler through the queue to
`EventService.store_event`. `Option`-typed fields model dict keys that may
be absent. Required request fields (`model`, `provider`, `tokens_prompt`,
`tokens_completion`, `latency_ms`) are always present once validation has
run, so they are non-optional here. -/
structure EventData where
  id : Option String := none
  time : Option String := none
  tenant_id : Option String := none
  project_id : Option String := none
  model : String
  provider : String
  endpoint : Option String := none
  user_id : Option String := none
  session_id : Option String := none
  tokens_prompt : Nat
  tokens_completion : Nat
  tokens_total : Option Nat := none
  latency_ms : Nat
  time_to_first_token_ms : Option Nat := none
  cost_usd : Option ℚ := none
  messages : Option String := none
  response : Option String := none
  temperature : Option ℚ := none
  max_tokens : Option Nat := none
  top_p : Option ℚ := none
  status : Option String := none
  error_message : Option String := none
  has_error : Option Bool := none
  pii_detected : Option Bool := none
  metadata : Option String := none
  deriving Repr, DecidableEq

/-- The `EventRequest` pydantic model of `backend/app/api/events.py`.
There is deliberately no `id` field: clients cannot supply an event id.
A field valued `none` models "the client did not set this field", which is
what `model_dump(exclude_unset=True)` looks at. The pydantic declaration
carries defaults (`status = "success"`, `has_error = False`,
`pii_detected = False`), but since both handlers dump with
`exclude_unset=True`, an unset field is simply absent from the dumped
dict; the declared defaults are recorded by the constants below. -/
structure EventRequest where
  tenant_id : Option String := none
  project_id : Option String := none
  time : Option String := none
  model : String
  provider : String
  endpoint : Option String := none
  user_id : Option String := none
  session_id : Option String := none
  tokens_prompt : Nat
  tokens_completion : Nat
  tokens_total : Option Nat := none
  latency_ms : Nat
  time_to_first_token_ms : Option Nat := none
  cost_usd : Option ℚ := none
  messages : Option String := none
  response : Option String := none
  temperature : Option ℚ := none
  max_tokens : Option Nat := none
  top_p : Option ℚ := none
  status : Option String := none
  error_message : Option String := none
  has_error : Option Bool := none
  pii_detected : Option Bool := none
  metadata : Option String := none
  deriving Repr, DecidableEq

/-- The default declared on the pydantic field `status: Optional[str] = "success"`. -/
def EventRequest.status_declared_default : String := "success"

/-- `event.model_dump(exclude_unset=True)`: the dict holds exactly the
fields the client set. In particular the result never has an `id` key,
and a field left unset is absent regardless of its declared default. -/
def dumpRequest (r : EventRequest) : EventData :=
  { id := none
    time := r.time
    tenant_id := r.tenant_id
    project_id := r.project_id
    model := r.model
    provider := r.provider
    endpoint := r.endpoint
    user_id := r.user_id
    session_id := r.session_id
    tokens_prompt := r.tokens_prompt
    tokens_completion := r.tokens_completion
    tokens_total := r.tokens_total
    latency_ms := r.latency_ms
    time_to_first_token_ms := r.time_to_first_token_ms
    cost_usd := r.cost_usd
    messages := r.messages
    response := r.response
    temperature := r.temperature
    max_tokens := r.max_tokens
    top_p := r.top_p
    status := r.status
    error_message := r.error_message
    has_error := r.has_error
    pii_detected := r.pii_detected
    metadata := r.metadata }

/-- A payload string on the Redis queue. `json e` stands for a string that
parses (by `json.loads`) to the event dict `e`; `malformed raw` stands for
a string that raises `json.JSONDecodeError`. -/
inductive Payload where
  | json (e : EventData)
  | malformed (raw : String)
  deriving Repr, DecidableEq

/-- A dead-letter-queue entry, built in `EventProcessor.send_to_dlq`:
`{event, error, timestamp, event_id}` wrapping the original payload. -/
structure DLQEntry where
  event : Payload
  error : String
  timestamp : String
  event_id : String
  deriving Repr, DecidableEq

/-- A row of the `llm_events` table (`backend/app/db/models.py`,
`LLMEvent`). Primary key is `(id, time)`. Columns `has_error` and
`pii_detected` carry a column default of `False`; `status` has no column
default, so an event dict without a `status` key stores SQL NULL
(modelled as `none`). -/
structure LLMEventRow where
  id : String
  time : String
  tenant_id : Option String
  project_id : Option String
  model : String
  provider : String
  endpoint : Option String
  user_id : Option String
  session_id : Option String
  tokens_prompt : Nat
  tokens_completion : Nat
  tokens_total : Option Nat
  latency_ms : Nat
  time_to_first_token_ms : Option Nat
  cost_usd : Option ℚ
  messages : Option String
  response : Option String
  temperature : Option ℚ
  max_tokens : Option Nat
  top_p : Option ℚ
  status : Option String
  error_message : Option String
  has_error : Bool
  pii_detected : Bool
  deriving Repr, DecidableEq

/-- Build the `LLMEvent(**event_data)` row. Columns absent from the dict
take their column default (`has_error`/`pii_detected` → `false`); `time`
is `nullable=False`, so a dict without a time raises at commit, which the
caller sees as a failed write. (The `id` column also has a `uuid4`
default, but every payload that reaches the worker has been given an id
by `queue_event`; we require it here.) -/
def mkRow (e : EventData) : Except String LLMEventRow :=
  match e.id, e.time with
  | some i, some t =>
      .ok { id := i
            time := t
            tenant_id := e.tenant_id
            project_id := e.project_id
            model := e.model
            provider := e.provider
            endpoint := e.endpoint
            user_id := e.user_id
            session_id := e.session_id
            tokens_prompt := e.tokens_prompt
            tokens_completion := e.tokens_completion
            tokens_total := e.tokens_total
            latency_ms := e.latency_ms
            time_to_first_token_ms := e.time_to_first_token_ms
            cost_usd := e.cost_usd
            messages := e.messages
            response := e.response
            temperature := e.temperature
            max_tokens := e.max_tokens
            top_p := e.top_p
            status := e.status
            error_message := e.error_message
            has_error := e.has_error.getD false
            pii_detected := e.pii_detected.getD false }
  | _, _ => .error "null value in column violates not-null constraint"

/-- The error PostgreSQL raises on a primary-key conflict (surfaced by
SQLAlchemy as an `IntegrityError` at `db.commit()`). -/
def duplicateKeyError : String :=
  "duplicate key value violates unique constraint llm_events_pkey"

/-- `EventService.store_event(db, event_data)`
(`backend/app/services/event_service.py`): create an `LLMEvent` from the
dict, `db.add`, `db.commit`. There is no `ON CONFLICT` handling anywhere
on this path: inserting a row whose `(id, time)` already exists raises an
`IntegrityError`, which propagates to the caller. On success the table
gains exactly the one new row. -/
def store_event (store : List LLMEventRow) (e : EventData) :
    Except String (List LLMEventRow) :=
  match mkRow e with
  | .error err => .error err
  | .ok row =>
      if store.any (fun r => r.id == row.id && r.time == row.time) then
        .error duplicateKeyError
      else
        .ok (store ++ [row])

/-- `EventService.queue_event(event_data)`: fill `cost_usd` (via
`calculate_cost`) when absent or null, assign a fresh UUID when the dict
has no `id`, set `time` to now when absent or null, then `lpush` the JSON
payload onto the primary queue and return the event id. `uuid` is the
value `uuid.uuid4()` would produce, `now` the current instant; the queue
is kept in FIFO order (enqueue at the tail). When the broker transport is
down (`transportOk = false`) the `lpush` raises and the queue is
unchanged. -/
def queue_event (transportOk : Bool) (uuid now : String)
    (q : List Payload) (event_data : EventData) :
    Except String (List Payload × String) :=
  let event_data :=
    if event_data.cost_usd = none then
      { event_data with
        cost_usd := some (calculate_cost event_data.model
          event_data.tokens_prompt event_data.tokens_completion) }
    else event_data
  let event_data :=
    if event_data.id = none then { event_data with id := some uuid } else event_data
  let event_data :=
    if event_data.time = none then { event_data with time := some now } else event_data
  if transportOk then
    .ok (q ++ [Payload.json event_data], event_data.id.getD "")
  else
    .error "TransportError: broker unreachable"

/-- The `EventResponse` body of a successful single ingest. -/
structure EventResponse where
  status : String
  event_id : String
  deriving Repr, DecidableEq

/-- HTTP-level failure of an ingest endpoint: pydantic validation
(status 422, a 400-class code) or a caught exception re-raised as
HTTP 500. -/
inductive IngestError where
  | validation (msg : String)
  | server (msg : String)
  deriving Repr, DecidableEq

/-- The HTTP status code an `IngestError` surfaces as. -/
def IngestError.statusCode : IngestError → Nat
  | .validation _ => 422
  | .server _ => 500

/-- `POST /events/ingest` (`ingest_event` in `backend/app/api/events.py`):
dump the validated request with `exclude_unset`, inject tenant/project
ids, derive `tokens_total` when the key is absent or null, queue the
event, and answer `{status: "accepted", event_id}`. Any exception is
re-raised as HTTP 500; a failed enqueue leaves the queue unchanged. -/
def ingest_event (tenant project : String) (transportOk : Bool)
    (uuid now : String) (q : List Payload) (event : EventRequest) :
    List Payload × Except IngestError EventResponse :=
  let event_data := dumpRequest event
  let event_data := { event_data with
    tenant_id := some tenant, project_id := some project }
  let event_data :=
    if event_data.tokens_total = none then
      { event_data with
        tokens_total := some (event.tokens_prompt + event.tokens_completion) }
    else event_data
  match queue_event transportOk uuid now q event_data with
  | .ok (q', event_id) => (q', .ok { status := "accepted", event_id := event_id })
  | .error e => (q, .error (.server ("Failed to queue event: " ++ e)))

/-- A raw (pre-validation) wire event for the batch body: the required
fields of `EventRequest` may be missing or of the wrong shape, in which
case pydantic rejects the whole request body. Optional fields are carried
through unchanged. -/
structure RawEventRequest where
  tenant_id : Option String := none
  project_id : Option String := none
  time : Option String := none
  model : Option String := none
  provider : Option String := none
  endpoint : Option String := none
  user_id : Option String := none
  session_id : Option String := none
  tokens_prompt : Option Nat := none
  tokens_completion : Option Nat := none
  tokens_total : Option Nat := none
  latency_ms : Option Nat := none
  time_to_first_token_ms : Option Nat := none
  cost_usd : Option ℚ := none
  messages : Option String := none
  response : Option String := none
  temperature : Option ℚ := none
  max_tokens : Option Nat := none
  top_p : Option ℚ := none
  status : Option String := none
  error_message : Option String := none
  has_error : Option Bool := none
  pii_detected : Option Bool := none
  metadata : Option String := none
  deriving Repr, DecidableEq

/-- Pydantic validation of one `EventRequest`: the required fields
`model`, `provider`, `tokens_prompt`, `tokens_completion`, `latency_ms`
must be present; everything else passes through. -/
def validateEvent (r : RawEventRequest) : Except String EventRequest :=
  match r.model, r.provider, r.tokens_prompt, r.tokens_completion, r.latency_ms with
  | some m, some p, some tp, some tc, some lm =>
      .ok { tenant_id := r.tenant_id
            project_id := r.project_id
            time := r.time
            model := m
            provider := p
            endpoint := r.endpoint
            user_id := r.user_id
            session_id := r.session_id
            tokens_prompt := tp
            tokens_completion := tc
            tokens_total := r.tokens_total
            latency_ms := lm
            time_to_first_token_ms := r.time_to_first_token_ms
            cost_usd := r.cost_usd
            messages := r.messages
            response := r.response
            temperature := r.temperature
            max_tokens := r.max_tokens
            top_p := r.top_p
            status := r.status
            error_message := r.error_message
            has_error := r.has_error
            pii_detected := r.pii_detected
            metadata := r.metadata }
  | _, _, _, _, _ => .error "field required"

/-- Validation of the `BatchIngestRequest` body
(`events: List[EventRequest] = Field(..., min_length=1, max_length=100)`):
the list length must lie in 1..100 and every element must validate.
FastAPI runs this before the handler, so a failure here happens before
any enqueue. -/
def validateBatch (raws : List RawEventRequest) :
    Except String (List EventRequest) :=
  if raws.length < 1 then .error "List should have at least 1 item"
  else if raws.length > 100 then .error "List should have at most 100 items"
  else raws.mapM validateEvent

/-- The `BatchIngestResponse` body of a successful batch ingest. -/
structure BatchIngestResponse where
  status : String
  count : Nat
  event_ids : List String
  deriving Repr, DecidableEq

/-- The per-event body of the batch loop in `ingest_events_batch`: dump
with `exclude_unset`, inject scope ids, derive `tokens_total` when absent
or null. -/
def batchEventData (tenant project : String) (event : EventRequest) : EventData :=
  let event_data := dumpRequest event
  let event_data := { event_data with
    tenant_id := some tenant, project_id := some project }
  if event_data.tokens_total = none then
    { event_data with
      tokens_total := some (event.tokens_prompt + event.tokens_completion) }
  else event_data

/-- The enqueue loop of `ingest_events_batch`: events are queued one by
one; `transportOkAt i` tells whether the broker accepts the `i`-th
`lpush`, and `uuids` supplies the fresh UUID for each event. The first
transport failure aborts the loop: the whole request fails with HTTP 500
while the already-enqueued events stay on the queue. -/
def batchLoop (tenant project now : String) (transportOkAt : Nat → Bool)
    (uuids : List String) (i : Nat) (q : List Payload) (ids : List String) :
    List EventRequest → List Payload × Except IngestError BatchIngestResponse
  | [] => (q, .ok { status := "accepted", count := ids.length, event_ids := ids })
  | event :: rest =>
      let event_data := batchEventData tenant project event
      match queue_event (transportOkAt i) ((uuids.get? i).getD "") now q event_data with
      | .ok (q', event_id) =>
          batchLoop tenant project now transportOkAt uuids (i + 1) q' (ids ++ [event_id]) rest
      | .error e => (q, .error (.server ("Failed to queue events: " ++ e)))

/-- `POST /events/ingest/batch` (`ingest_events_batch`): validate the
whole body first (1..100 events, all well-formed) — a validation failure
rejects the request before any enqueue — then run the enqueue loop. -/
def ingest_events_batch (tenant project now : String)
    (transportOkAt : Nat → Bool) (uuids : List String)
    (q : List Payload) (raws : List RawEventRequest) :
    List Payload × Except IngestError BatchIngestResponse :=
  match validateBatch raws with
  | .error msg => (q, .error (.validation msg))
  | .ok events => batchLoop tenant project now transportOkAt uuids 0 q [] events

/-- The full mutable world the worker touches
(`backend/app/workers/event_processor.py`): the primary Redis queue
(FIFO order, head = next `rpop`), the `llm_events` table, the DLQ list,
the recorded backoff sleeps (seconds, in order), the Live Update Bus
viewers (each with the list of messages received:
`websocket.ConnectionManager.active_connections`), plus the modelled
fault environment: `dbHealth` is consumed one boolean per store-write
attempt (`true` = database reachable; an empty list means healthy), and
`dlqOk` tells whether Redis accepts DLQ `lpush`es. -/
structure WorkerState where
  queue : List Payload
  store : List LLMEventRow
  dlq : List DLQEntry
  sleeps : List ℚ
  bus : List (List String)
  dbHealth : List Bool
  dlqOk : Bool
  deriving Repr, DecidableEq

/-- Consume one entry of the database-health stream; an exhausted stream
means the database stays reachable. -/
def popHealth : List Bool → Bool × List Bool
  | [] => (true, [])
  | b :: rest => (b, rest)

/-- One store-write attempt (`EventService.store_event` called from the
worker): consume a health token; if the database is unreachable the
attempt raises an `OperationalError`, otherwise the insert runs (and may
itself raise, e.g. on duplicate key or a null `time`). -/
def attemptWrite (st : WorkerState) (e : EventData) :
    Except String (List LLMEventRow) × WorkerState :=
  let (ok, rest) := popHealth st.dbHealth
  let st' := { st with dbHealth := rest }
  if ok then (store_event st.store e, st') else (.error "connection refused", st')

/-- `EventProcessor.send_to_dlq(event_json, error, event_id)`: build the
`{event, error, timestamp, event_id}` entry and `lpush` it onto the DLQ.
The whole body sits in a `try/except` that only logs: a failing DLQ write
(`dlqOk = false`) leaves every queue and table unchanged and the function
still returns normally. -/
def send_to_dlq (st : WorkerState) (event_json : Payload) (error : String)
    (event_id : String) (now : String) : WorkerState :=
  if st.dlqOk then
    { st with dlq := st.dlq ++ [{ event := event_json, error := error,
                                  timestamp := now, event_id := event_id }] }
  else
    st

/-- `EventProcessor.process_single_event(event_json, db, retry_count)`:
parse the payload — a malformed one goes straight to the DLQ with
`event_id = "unknown"` and no write attempt — then try the store write.
On failure with `retry_count < worker_max_retries`, sleep
`worker_retry_backoff_base ** retry_count` seconds and recurse with
`retry_count + 1`; once retries are exhausted, wrap the original payload
in a DLQ entry carrying the last error and the event's id. Retries stay
in-process: the primary queue is never touched. Returns the updated world
and the success boolean. -/
def process_single_event (cfg : Settings) (st : WorkerState)
    (event_json : Payload) (retry_count : Nat) (now : String) :
    WorkerState × Bool :=
  match event_json with
  | .malformed _ =>
      (send_to_dlq st event_json "Invalid JSON in queue" "unknown" now, false)
  | .json event_data =>
      let event_id := event_data.id.getD "unknown"
      match attemptWrite st event_data with
      | (.ok newStore, st') => ({ st' with store := newStore }, true)
      | (.error e, st') =>
          if retry_count < cfg.worker_max_retries then
            let backoff_time := cfg.worker_retry_backoff_base ^ retry_count
            let st'' := { st' with sleeps := st'.sleeps ++ [backoff_time] }
            process_single_event cfg st'' event_json (retry_count + 1) now
          else
            (send_to_dlq st' event_json ("Failed to process event: " ++ e)
              event_id now, false)
  termination_by cfg.worker_max_retries + 1 - retry_count

/-- `EventProcessor.process_batch(batch_size)`: `rpop` up to `batch_size`
payloads from the primary queue, then process them in order in a single
database session, counting successes. Returns the updated world and the
success count. Note: nothing on this path signals the Live Update Bus. -/
def process_batch (cfg : Settings) (st : WorkerState) (batch_size : Nat)
    (now : String) : WorkerState × Nat :=
  let events_to_process := st.queue.take batch_size
  let st := { st with queue := st.queue.drop batch_size }
  events_to_process.foldl
    (fun acc event_json =>
      let (st', ok) := process_single_event cfg acc.1 event_json 0 now
      (st', if ok then acc.2 + 1 else acc.2))
    (st, 0)

/-- `ConnectionManager.broadcast(message)`
(`backend/app/api/websocket.py`): send the message to every registered
viewer. -/
def broadcast (bus : List (List String)) (message : String) : List (List String) :=
  bus.map (fun received => received ++ [message])

/-- `notify_event_update()` (`backend/app/api/websocket.py`): broadcast
one `event_update` tick to all connected viewers. In the source this is
invoked only by the demo chat endpoint in `backend/app/main.py` after it
queues its event — never by the worker. -/
def notify_event_update (bus : List (List String)) : List (List String) :=
  broadcast bus "event_update"

/-! ### Concrete demonstration inputs

Closed inputs used by counterexamples and witnesses below. -/

/-- A well-formed request: the spec's happy-path example event. -/
def demoReq : EventRequest :=
  { model := "gpt-4", provider := "openai", tokens_prompt := 1000,
    tokens_completion := 500, latency_ms := 1200 }

/-- A queued event dict (as it would sit on the queue after
`queue_event`): id and time assigned, all other optional fields unset. -/
def demoEvent : EventData :=
  { id := some "11111111-1111-1111-1111-111111111111"
    time := some "2024-01-01T00:00:00+00:00"
    model := "gpt-4", provider := "openai"
    tokens_prompt := 10, tokens_completion := 20
    tokens_total := some 30, latency_ms := 5
    tenant_id := some "T", project_id := some "P" }

/-- A raw batch element that passes validation. -/
def validRaw : RawEventRequest :=
  { model := some "gpt-4", provider := some "openai",
    tokens_prompt := some 1, tokens_completion := some 1,
    latency_ms := some 1 }

/-- A raw batch element missing its required `latency_ms`. -/
def invalidRaw : RawEventRequest :=
  { model := some "gpt-4", provider := some "openai",
    tokens_prompt := some 1, tokens_completion := some 1 }

/-- A request that supplies its own (inconsistent) `tokens_total`:
10 + 20 = 30, but the client claims 999. -/
def c3req : EventRequest :=
  { model := "gpt-4", provider := "openai", tokens_prompt := 10,
    tokens_completion := 20, tokens_total := some 999, latency_ms := 5 }

/-- End-to-end run for the inconsistent-`tokens_total` request: ingest it
(queue empty, healthy broker), then let the worker drain the queue into
an empty store with a healthy database. -/
def c3pipeline : WorkerState × Nat :=
  let q := (ingest_event "T" "P" true "u-c3" "2024-01-01T00:00:00+00:00" [] c3req).1
  process_batch settings
    { queue := q, store := [], dlq := [], sleeps := [], bus := [],
      dbHealth := [], dlqOk := true }
    settings.redis_queue_batch_size "2024-01-01T00:00:05+00:00"

/-- Worker world for the live-bus counterexample: one event on the queue,
one registered viewer that has received nothing, healthy database. -/
def c7state : WorkerState :=
  { queue := [Payload.json demoEvent], store := [], dlq := [], sleeps := [],
    bus := [[]], dbHealth := [], dlqOk := true }

/-- A request that leaves `status` (and `has_error`) unset. -/
def c8req : EventRequest :=
  { model := "gpt-4", provider := "openai", tokens_prompt := 1,
    tokens_completion := 1, latency_ms := 1 }

/-- End-to-end run for the unset-`status` request: ingest, then drain. -/
def c8pipeline : WorkerState × Nat :=
  let q := (ingest_event "T" "P" true "u-c8" "2024-01-01T00:00:00+00:00" [] c8req).1
  process_batch settings
    { queue := q, store := [], dlq := [], sleeps := [], bus := [],
      dbHealth := [], dlqOk := true }
    settings.redis_queue_batch_size "2024-01-01T00:00:05+00:00"

/-- An event dict with an unknown model and no `cost_usd`, for the
unknown-model pricing witness. -/
def mysteryEvent : EventData :=
  { model := "mystery-x", provider := "x", tokens_prompt := 10,
    tokens_completion := 10, latency_ms := 50 }

/-- The row `store_event` inserts for `demoEvent` into an empty table. -/
def demoRow : LLMEventRow :=
  { id := "11111111-1111-1111-1111-111111111111"
    time := "2024-01-01T00:00:00+00:00"
    tenant_id := some "T", project_id := some "P"
    model := "gpt-4", provider := "openai"
    endpoint := none, user_id := none, session_id := none
    tokens_prompt := 10, tokens_completion := 20, tokens_total := some 30
    latency_ms := 5, time_to_first_token_ms := none
    cost_usd := none, messages := none, response := none
    temperature := none, max_tokens := none, top_p := none
    status := none, error_message := none
    has_error := false, pii_detected := false }

/-- The normalized form of `c3req` as `queue_event` enqueues it. -/
def c3event : EventData :=
  { id := some "u-c3", time := some "2024-01-01T00:00:00+00:00"
    tenant_id := some "T", project_id := some "P"
    model := "gpt-4", provider := "openai"
    tokens_prompt := 10, tokens_completion := 20, tokens_total := some 999
    latency_ms := 5, cost_usd := some (3/2000) }

/-- The row the worker stores for `c3event`. -/
def c3row : LLMEventRow :=
  { id := "u-c3", time := "2024-01-01T00:00:00+00:00"
    tenant_id := some "T", project_id := some "P"
    model := "gpt-4", provider := "openai"
    endpoint := none, user_id := none, session_id := none
    tokens_prompt := 10, tokens_completion := 20, tokens_total := some 999
    latency_ms := 5, time_to_first_token_ms := none
    cost_usd := some (3/2000), messages := none, response := none
    temperature := none, max_tokens := none, top_p := none
    status := none, error_message := none
    has_error := false, pii_detected := false }

/-- The normalized form of `c8req` as `queue_event` enqueues it. -/
def c8event : EventData :=
  { id := some "u-c8", time := some "2024-01-01T00:00:00+00:00"
    tenant_id := some "T", project_id := some "P"
    model := "gpt-4", provider := "openai"
    tokens_prompt := 1, tokens_completion := 1, tokens_total := some 2
    latency_ms := 1, cost_usd := some (9/100000) }

/-- The row the worker stores for `c8event`: `status` is SQL NULL (the
pydantic default `"success"` was dropped by `exclude_unset` and the
column has no default), while `has_error`/`pii_detected` get the column
default `false`. -/
def c8row : LLMEventRow :=
  { id := "u-c8", time := "2024-01-01T00:00:00+00:00"
    tenant_id := some "T", project_id := some "P"
    model := "gpt-4", provider := "openai"
    endpoint := none, user_id := none, session_id := none
    tokens_prompt := 1, tokens_completion := 1, tokens_total := some 2
    latency_ms := 1, time_to_first_token_ms := none
    cost_usd := some (9/100000), messages := none, response := none
    temperature := none, max_tokens := none, top_p := none
    status := none, error_message := none
    has_error := false, pii_detected := false }

/-! ### Helper lemmas -/

/-- Unfolding lemma: processing a malformed payload goes straight to the
DLQ. -/
lemma pse_malformed (cfg : Settings) (st : WorkerState) (raw now : String) (rc : Nat) :
    process_single_event cfg st (Payload.malformed raw) rc now =
      (send_to_dlq st (Payload.malformed raw) "Invalid JSON in queue" "unknown" now, false) := by
  rw [process_single_event]

/-- Unfolding lemma: one processing step of a parseable payload. -/
lemma pse_json_step (cfg : Settings) (st : WorkerState) (e : EventData) (rc : Nat) (now : String) :
    process_single_event cfg st (Payload.json e) rc now =
      (match attemptWrite st e with
       | (.ok newStore, st') => ({ st' with store := newStore }, true)
       | (.error err, st') =>
           if rc < cfg.worker_max_retries then
             process_single_event cfg
               { st' with sleeps := st'.sleeps ++ [cfg.worker_retry_backoff_base ^ rc] }
               (Payload.json e) (rc + 1) now
           else
             (send_to_dlq st' (Payload.json e) ("Failed to process event: " ++ err)
               (e.id.getD "unknown") now, false)) := by
  rw [process_single_event]

/-- A store-write attempt only consumes one database-health token; the
rest of the world is returned unchanged. -/
lemma attemptWrite_state (st : WorkerState) (e : EventData)
    (r : Except String (List LLMEventRow)) (st' : WorkerState)
    (hx : attemptWrite st e = (r, st')) :
    st' = { st with dbHealth := (popHealth st.dbHealth).2 } := by
  simp only [attemptWrite] at hx
  split at hx <;> (injection hx with h1 h2; exact h2.symm)

/-- `process_single_event` never touches the Live Update Bus. -/
lemma pse_bus (cfg : Settings) (st : WorkerState) (p : Payload) (rc : Nat) (now : String) :
    (process_single_event cfg st p rc now).1.bus = st.bus := by
  induction st, p, rc, now using process_single_event.induct cfg with
  | case1 st rc now raw =>
      rw [pse_malformed]
      simp only [send_to_dlq]
      split <;> rfl
  | case2 st rc now e newStore st' hx =>
      have hb := attemptWrite_state st e _ st' hx
      rw [pse_json_step, hx, hb]
  | case3 st rc now e err st' hx hlt backoff st2 ih =>
      have hb := attemptWrite_state st e _ st' hx
      rw [pse_json_step, hx]
      simp only [hlt, if_true]
      rw [ih]
      show st'.bus = st.bus
      rw [hb]
  | case4 st rc now e err st' hx hge =>
      have hb := attemptWrite_state st e _ st' hx
      rw [pse_json_step, hx]
      simp only [hge, if_false]
      simp only [send_to_dlq]
      split <;> rw [hb]

/-- The worker's per-batch fold never touches the Live Update Bus. -/
lemma batch_fold_bus (cfg : Settings) (now : String) :
    ∀ (l : List Payload) (acc : WorkerState × Nat),
      (l.foldl (fun acc event_json =>
          let (st', ok) := process_single_event cfg acc.1 event_json 0 now
          (st', if ok then acc.2 + 1 else acc.2)) acc).1.bus = acc.1.bus := by
  intro l
  induction l with
  | nil => intro acc; rfl
  | cons p rest ih =>
      intro acc
      rw [List.foldl_cons, ih]
      exact pse_bus cfg acc.1 p 0 now

/-! ### Claim theorems -/

/-- C1. A parseable payload whose store write fails persistently is
attempted exactly `worker_max_retries + 1 = 4` times (four health tokens
are consumed), with backoff sleeps of `2^0, 2^1, 2^2 = 1, 2, 4` seconds
between attempts; afterwards exactly one DLQ entry is appended, wrapping
the original payload with the error string and the event's id. The store
gains no row and the primary queue is never re-entered. -/
theorem claim1_retry_exhaustion_to_dlq
    (q : List Payload) (store : List LLMEventRow) (dlq : List DLQEntry)
    (sleeps : List ℚ) (bus : List (List String)) (rest : List Bool)
    (e : EventData) (eid now : String) (hid : e.id = some eid) :
    process_single_event settings
      ⟨q, store, dlq, sleeps, bus, false :: false :: false :: false :: rest, true⟩
      (Payload.json e) 0 now =
      (⟨q, store,
        dlq ++ [⟨Payload.json e, "Failed to process event: connection refused", now, eid⟩],
        sleeps ++ [1, 2, 4], bus, rest, true⟩, false) := by
  simp [pse_json_step, settings, attemptWrite, popHealth, send_to_dlq, hid]
  norm_num

/-- Witness for C1 at a concrete event and worker world. -/
theorem claim1_witness :
    demoEvent.id = some "11111111-1111-1111-1111-111111111111" ∧
    process_single_event settings
      ⟨[], [], [], [], [], [false, false, false, false], true⟩
      (Payload.json demoEvent) 0 "NOW" =
      (⟨[], [],
        [⟨Payload.json demoEvent, "Failed to process event: connection refused",
          "NOW", "11111111-1111-1111-1111-111111111111"⟩],
        [1, 2, 4], [], [], true⟩, false) :=
  ⟨rfl, claim1_retry_exhaustion_to_dlq [] [] [] [] [] [] demoEvent _ "NOW" rfl⟩

/-- C5. A payload that does not parse as JSON performs no store-write
attempt (no database-health token is consumed) and no retries (no sleeps),
and appends exactly one DLQ entry `{event, error, timestamp, event_id}`
with `event_id = "unknown"`. -/
theorem claim5_malformed_to_dlq_unretried
    (q : List Payload) (store : List LLMEventRow) (dlq : List DLQEntry)
    (sleeps : List ℚ) (bus : List (List String)) (dbHealth : List Bool)
    (raw now : String) :
    process_single_event settings ⟨q, store, dlq, sleeps, bus, dbHealth, true⟩
      (Payload.malformed raw) 0 now =
      (⟨q, store,
        dlq ++ [⟨Payload.malformed raw, "Invalid JSON in queue", now, "unknown"⟩],
        sleeps, bus, dbHealth, true⟩, false) := by
  rw [pse_malformed]
  simp [send_to_dlq]

/-- C10. `send_to_dlq` absorbs DLQ-write failures (it returns normally
with the world unchanged), so an event that exhausts its retries while
the DLQ write also fails ends up in neither the store nor the DLQ:
`process_single_event` still returns `false` normally and only the
backoff sleeps and consumed health tokens witness that anything
happened. -/
theorem claim10_dlq_failure_is_silent
    (q : List Payload) (store : List LLMEventRow) (dlq : List DLQEntry)
    (sleeps : List ℚ) (bus : List (List String)) (rest : List Bool)
    (e : EventData) (now : String) :
    (∀ (p : Payload) (err eid n : String),
        send_to_dlq ⟨q, store, dlq, sleeps, bus, rest, false⟩ p err eid n =
          ⟨q, store, dlq, sleeps, bus, rest, false⟩) ∧
    process_single_event settings
      ⟨q, store, dlq, sleeps, bus, false :: false :: false :: false :: rest, false⟩
      (Payload.json e) 0 now =
      (⟨q, store, dlq, sleeps ++ [1, 2, 4], bus, rest, false⟩, false) := by
  constructor
  · intro p err eid n
    simp [send_to_dlq]
  · simp [pse_json_step, settings, attemptWrite, popHealth, send_to_dlq]
    norm_num

/-- Draining a singleton queue is one `process_single_event` run on the
popped payload. -/
lemma process_batch_one (cfg : Settings) (bs : Nat) (hbs : 0 < bs)
    (q : List Payload) (p : Payload) (hq : q = [p])
    (store : List LLMEventRow) (dlq : List DLQEntry) (sleeps : List ℚ)
    (bus : List (List String)) (dbHealth : List Bool) (dlqOk : Bool) (now : String) :
    process_batch cfg ⟨q, store, dlq, sleeps, bus, dbHealth, dlqOk⟩ bs now =
      ((process_single_event cfg ⟨[], store, dlq, sleeps, bus, dbHealth, dlqOk⟩ p 0 now).1,
       if (process_single_event cfg ⟨[], store, dlq, sleeps, bus, dbHealth, dlqOk⟩ p 0 now).2
       then 1 else 0) := by
  subst hq
  simp only [process_batch]
  rw [List.take_of_length_le (by simpa using hbs), List.drop_eq_nil_iff.mpr (by simpa using hbs)]
  simp [List.foldl]

/-- C2 counterexample: with the store already holding `demoEvent`'s row,
storing the identical event is not silently accepted — it raises the
duplicate-key error instead of returning the unchanged store. -/
theorem claim2_counterexample :
    store_event [] demoEvent = .ok [demoRow] ∧
    store_event [demoRow] demoEvent = .error duplicateKeyError ∧
    store_event [demoRow] demoEvent ≠ .ok [demoRow] :=
  ⟨rfl, rfl, fun h => Except.noConfusion h⟩

/-- C2 amended: the store write is *not* idempotent on primary-key
conflict. Inserting an event whose `(id, time)` already exists in the
store raises the duplicate-key `IntegrityError` (so the store keeps the
single existing row and the worker routes the duplicate through the
retry/DLQ ladder). -/
theorem claim2_duplicate_key_raises
    (s : List LLMEventRow) (e : EventData) (row : LLMEventRow)
    (hrow : mkRow e = .ok row) (r : LLMEventRow) (hr : r ∈ s)
    (hid : r.id = row.id) (ht : r.time = row.time) :
    store_event s e = .error duplicateKeyError := by
  have hex : ∃ x ∈ s, x.id = row.id ∧ x.time = row.time := ⟨r, hr, hid, ht⟩
  simp [store_event, hrow, hex]

/-- Witness for C2's amended theorem at the concrete duplicate. -/
theorem claim2_witness :
    store_event [demoRow] demoEvent = .error duplicateKeyError :=
  claim2_duplicate_key_raises [demoRow] demoEvent demoRow rfl demoRow
    (List.mem_singleton.mpr rfl) rfl rfl

/-- C3 counterexample: a request that supplies `tokens_total = 999` with
`tokens_prompt = 10`, `tokens_completion = 20` flows through ingest, the
queue and the worker unchanged: the stored row keeps the client's 999,
violating `tokens_total = tokens_prompt + tokens_completion`. -/
theorem claim3_counterexample :
    (c3pipeline.1.store.map fun r => (r.tokens_prompt, r.tokens_completion, r.tokens_total))
      = [(10, 20, some 999)] ∧
    c3pipeline.2 = 1 ∧
    (999 : Nat) ≠ 10 + 20 := by
  have hin : (ingest_event "T" "P" true "u-c3" "2024-01-01T00:00:00+00:00" [] c3req).1
      = [Payload.json c3event] := by
    simp [ingest_event, dumpRequest, queue_event, c3req, c3event, calculate_cost, pricing]
    norm_num
  have h := process_batch_one settings settings.redis_queue_batch_size
    (by norm_num [settings]) _ (Payload.json c3event) hin
    [] [] [] [] [] true "2024-01-01T00:00:05+00:00"
  have hp : process_single_event settings ⟨[], [], [], [], [], [], true⟩
      (Payload.json c3event) 0 "2024-01-01T00:00:05+00:00" =
      (⟨[], [c3row], [], [], [], [], true⟩, true) := by
    rw [pse_json_step]
    simp [attemptWrite, popHealth, store_event, mkRow, c3event, c3row]
  refine ⟨?_, ?_, by decide⟩ <;> simp [c3pipeline, h, hp, c3row]

/-- C3 amended: the invariant holds exactly for requests that do not
supply `tokens_total` (absent or null): the ingest handler then derives
`tokens_total = tokens_prompt + tokens_completion`, the value rides the
queue unchanged, and the worker stores it; a client-supplied non-null
`tokens_total` is instead stored verbatim (see the counterexample). -/
theorem claim3_tokens_total_derived
    (req : EventRequest) (h : req.tokens_total = none)
    (tenant project uuid now wnow : String)
    (dlq : List DLQEntry) (sleeps : List ℚ) (bus : List (List String)) (dlqOk : Bool) :
    ∃ (e : EventData) (row : LLMEventRow),
      ingest_event tenant project true uuid now [] req =
        ([Payload.json e], .ok ⟨"accepted", uuid⟩) ∧
      e.tokens_total = some (req.tokens_prompt + req.tokens_completion) ∧
      process_batch settings ⟨[Payload.json e], [], dlq, sleeps, bus, [], dlqOk⟩
        settings.redis_queue_batch_size wnow =
        (⟨[], [row], dlq, sleeps, bus, [], dlqOk⟩, 1) ∧
      row.tokens_total = some (req.tokens_prompt + req.tokens_completion) ∧
      row.tokens_prompt = req.tokens_prompt ∧
      row.tokens_completion = req.tokens_completion := by
  refine ⟨{ dumpRequest req with
      tenant_id := some tenant, project_id := some project,
      tokens_total := some (req.tokens_prompt + req.tokens_completion),
      cost_usd := some (req.cost_usd.getD
        (calculate_cost req.model req.tokens_prompt req.tokens_completion)),
      id := some uuid, time := some (req.time.getD now) },
    { id := uuid, time := req.time.getD now,
      tenant_id := some tenant, project_id := some project,
      model := req.model, provider := req.provider,
      endpoint := req.endpoint, user_id := req.user_id, session_id := req.session_id,
      tokens_prompt := req.tokens_prompt, tokens_completion := req.tokens_completion,
      tokens_total := some (req.tokens_prompt + req.tokens_completion),
      latency_ms := req.latency_ms,
      time_to_first_token_ms := req.time_to_first_token_ms,
      cost_usd := some (req.cost_usd.getD
        (calculate_cost req.model req.tokens_prompt req.tokens_completion)),
      messages := req.messages, response := req.response,
      temperature := req.temperature, max_tokens := req.max_tokens,
      top_p := req.top_p, status := req.status, error_message := req.error_message,
      has_error := req.has_error.getD false,
      pii_detected := req.pii_detected.getD false }, ?_, rfl, ?_, rfl, rfl, rfl⟩
  · cases hc : req.cost_usd <;> cases htm : req.time <;>
      simp [ingest_event, dumpRequest, queue_event, h, hc, htm]
  · rw [process_batch_one settings _ (by norm_num [settings]) _ _ rfl]
    rw [pse_json_step]
    simp [attemptWrite, popHealth, store_event, mkRow, dumpRequest]

/-- Witness for C3's amended theorem at the happy-path request. -/
theorem claim3_witness :
    demoReq.tokens_total = none ∧
    ∃ (e : EventData) (row : LLMEventRow),
      ingest_event "T" "P" true "u1" "N" [] demoReq =
        ([Payload.json e], .ok ⟨"accepted", "u1"⟩) ∧
      e.tokens_total = some (demoReq.tokens_prompt + demoReq.tokens_completion) ∧
      process_batch settings ⟨[Payload.json e], [], [], [], [], [], true⟩
        settings.redis_queue_batch_size "W" =
        (⟨[], [row], [], [], [], [], true⟩, 1) ∧
      row.tokens_total = some (demoReq.tokens_prompt + demoReq.tokens_completion) ∧
      row.tokens_prompt = demoReq.tokens_prompt ∧
      row.tokens_completion = demoReq.tokens_completion :=
  ⟨rfl, claim3_tokens_total_derived demoReq rfl "T" "P" "u1" "N" "W" [] [] [] true⟩

/-- With a healthy broker, `queue_event` appends exactly one payload to
the queue and succeeds. -/
lemma queue_event_ok (uuid now : String) (q : List Payload) (ed : EventData) :
    ∃ (e' : EventData) (eid : String),
      queue_event true uuid now q ed = .ok (q ++ [Payload.json e'], eid) := by
  simp only [queue_event]
  exact ⟨_, _, rfl⟩

/-- With the broker down, `queue_event` raises and leaves the queue
alone. -/
lemma queue_event_err (uuid now : String) (q : List Payload) (ed : EventData) :
    queue_event false uuid now q ed = .error "TransportError: broker unreachable" := rfl

/-- If every raw event validates, validating the list succeeds and
preserves length. -/
lemma mapM_validate_ok :
    ∀ (raws : List RawEventRequest), (∀ r ∈ raws, ∃ e, validateEvent r = .ok e) →
      ∃ events : List EventRequest, raws.mapM validateEvent = .ok events ∧
        events.length = raws.length := by
  intro raws
  induction raws with
  | nil => exact fun _ => ⟨[], rfl, rfl⟩
  | cons a as ih =>
      intro hall
      obtain ⟨e, he⟩ := hall a (List.mem_cons_self a as)
      obtain ⟨es, hes, hlen⟩ := ih (fun r hr => hall r (List.mem_cons_of_mem a hr))
      refine ⟨e :: es, ?_, by simp [hlen]⟩
      rw [List.mapM_cons, he, hes]
      rfl

/-- One invalid raw event makes the whole validation fail. -/
lemma mapM_validate_err :
    ∀ (raws : List RawEventRequest) (r : RawEventRequest) (m : String),
      r ∈ raws → validateEvent r = .error m →
      ∃ m', raws.mapM validateEvent = .error m' := by
  intro raws
  induction raws with
  | nil => intro r m hr; cases hr
  | cons a as ih =>
      intro r m hr herr
      rw [List.mapM_cons]
      cases ha : validateEvent a with
      | error m2 => exact ⟨m2, rfl⟩
      | ok e =>
          rcases List.mem_cons.mp hr with rfl | hr2
          · rw [ha] at herr; cases herr
          · obtain ⟨m', hm'⟩ := ih r m hr2 herr
            refine ⟨m', ?_⟩
            show (as.mapM validateEvent >>= fun bs => pure (e :: bs)) = .error m'
            rw [hm']
            rfl

/-- With a healthy broker throughout, the batch enqueue loop accepts the
whole batch, adding one queue entry and one returned id per event. -/
lemma batchLoop_all_ok (tenant project now : String) (okAt : Nat → Bool)
    (hok : ∀ j, okAt j = true) (uuids : List String) :
    ∀ (events : List EventRequest) (i : Nat) (q : List Payload) (ids : List String),
      ∃ (q' : List Payload) (ids' : List String),
        batchLoop tenant project now okAt uuids i q ids events =
          (q', .ok ⟨"accepted", ids'.length, ids'⟩) ∧
        q'.length = q.length + events.length ∧
        ids'.length = ids.length + events.length := by
  intro events
  induction events with
  | nil => exact fun i q ids => ⟨q, ids, rfl, by simp, by simp⟩
  | cons ev rest ih =>
      intro i q ids
      obtain ⟨e', eid, hqe⟩ :=
        queue_event_ok ((uuids.get? i).getD "") now q (batchEventData tenant project ev)
      obtain ⟨q', ids', heq, hql, hil⟩ := ih (i + 1) (q ++ [Payload.json e']) (ids ++ [eid])
      refine ⟨q', ids', ?_, ?_, ?_⟩
      · simp only [batchLoop, hok i, hqe]
        exact heq
      · simp at hql ⊢; omega
      · simp at hil ⊢; omega

/-- A broker failure at relative position `k` of the enqueue loop fails
the whole batch with a 5xx server error while keeping the `k` events
already enqueued on the queue. -/
lemma batchLoop_transport_fail (tenant project now : String) (okAt : Nat → Bool)
    (uuids : List String) :
    ∀ (events : List EventRequest) (k i : Nat) (q : List Payload) (ids : List String),
      (∀ j, j < k → okAt (i + j) = true) → okAt (i + k) = false → k < events.length →
      ∃ (q' : List Payload) (msg : String),
        batchLoop tenant project now okAt uuids i q ids events =
          (q', .error (.server msg)) ∧
        q'.length = q.length + k := by
  intro events
  induction events with
  | nil => intro k i q ids _ _ hk; exact absurd hk (Nat.not_lt_zero k)
  | cons ev rest ih =>
      intro k i q ids hbefore hfail hk
      cases k with
      | zero =>
          have h0 : okAt i = false := by simpa using hfail
          refine ⟨q, "Failed to queue events: TransportError: broker unreachable", ?_, by simp⟩
          simp only [batchLoop, h0, queue_event_err]
          rfl
      | succ k' =>
          have h0 : okAt i = true := by simpa using hbefore 0 (Nat.succ_pos k')
          obtain ⟨e', eid, hqe⟩ :=
            queue_event_ok ((uuids.get? i).getD "") now q (batchEventData tenant project ev)
          obtain ⟨q', msg, heq, hql⟩ := ih k' (i + 1) (q ++ [Payload.json e']) (ids ++ [eid])
            (fun j hj => by
              have := hbefore (j + 1) (Nat.succ_lt_succ hj)
              have harith : i + (j + 1) = i + 1 + j := by omega
              rwa [harith] at this)
            (by
              have harith : i + (k' + 1) = i + 1 + k' := by omega
              rwa [harith] at hfail)
            (Nat.lt_of_succ_lt_succ hk)
          refine ⟨q', msg, ?_, ?_⟩
          · simp only [batchLoop, h0, hqe]
            exact heq
          · simp at hql ⊢; omega

/-- C4. Batch ingest accepts exactly 1..100 events: an empty batch and a
batch of 101 are rejected with a 400-class validation error (HTTP 422)
before any enqueue (queue unchanged); a fully valid batch of 100 with a
healthy broker is accepted, enqueuing exactly 100 payloads; a
normalization failure on any element fails the whole batch with a
validation error before any enqueue; a transport failure at position `k`
of the enqueue loop fails the whole batch with a 5xx server error while
the `k`-event already-enqueued front of the batch stays on the queue. -/
theorem claim4_batch_boundaries :
    (∀ (tenant project now : String) (okAt : Nat → Bool) (uuids : List String)
        (q : List Payload),
        ingest_events_batch tenant project now okAt uuids q [] =
          (q, .error (.validation "List should have at least 1 item"))) ∧
    (∀ (tenant project now : String) (okAt : Nat → Bool) (uuids : List String)
        (q : List Payload) (raws : List RawEventRequest), raws.length = 101 →
        ingest_events_batch tenant project now okAt uuids q raws =
          (q, .error (.validation "List should have at most 100 items"))) ∧
    (∀ (tenant project now : String) (okAt : Nat → Bool) (uuids : List String)
        (q : List Payload) (raws : List RawEventRequest),
        raws.length = 100 → (∀ j, okAt j = true) →
        (∀ r ∈ raws, ∃ e, validateEvent r = .ok e) →
        ∃ (q' : List Payload) (ids : List String),
          ingest_events_batch tenant project now okAt uuids q raws =
            (q', .ok ⟨"accepted", ids.length, ids⟩) ∧
          ids.length = 100 ∧ q'.length = q.length + 100) ∧
    (∀ (tenant project now : String) (okAt : Nat → Bool) (uuids : List String)
        (q : List Payload) (raws : List RawEventRequest) (r : RawEventRequest) (m : String),
        r ∈ raws → validateEvent r = .error m →
        ∃ msg, ingest_events_batch tenant project now okAt uuids q raws =
          (q, .error (.validation msg))) ∧
    (∀ (tenant project now : String) (okAt : Nat → Bool) (uuids : List String)
        (q : List Payload) (raws : List RawEventRequest) (k : Nat),
        (∀ r ∈ raws, ∃ e, validateEvent r = .ok e) →
        1 ≤ raws.length → raws.length ≤ 100 →
        (∀ j, j < k → okAt j = true) → okAt k = false → k < raws.length →
        ∃ (q' : List Payload) (msg : String),
          ingest_events_batch tenant project now okAt uuids q raws =
            (q', .error (.server msg)) ∧ q'.length = q.length + k) ∧
    (∀ m, (IngestError.validation m).statusCode = 422 ∧
          (IngestError.server m).statusCode = 500) := by
  refine ⟨?_, ?_, ?_, ?_, ?_, fun m => ⟨rfl, rfl⟩⟩
  · intro tenant project now okAt uuids q
    rfl
  · intro tenant project now okAt uuids q raws hlen
    simp only [ingest_events_batch, validateBatch, hlen]
    norm_num
  · intro tenant project now okAt uuids q raws hlen hok hall
    obtain ⟨events, hev, helen⟩ := mapM_validate_ok raws hall
    obtain ⟨q', ids', heq, hql, hil⟩ :=
      batchLoop_all_ok tenant project now okAt hok uuids events 0 q []
    refine ⟨q', ids', ?_, ?_, ?_⟩
    · simp only [ingest_events_batch, validateBatch]
      rw [if_neg (by omega), if_neg (by omega), hev]
      exact heq
    · simp at hil; omega
    · omega
  · intro tenant project now okAt uuids q raws r m hr herr
    have hpos : 0 < raws.length := List.length_pos_of_mem hr
    simp only [ingest_events_batch, validateBatch]
    rw [if_neg (by omega)]
    by_cases hlen : raws.length > 100
    · rw [if_pos hlen]
      exact ⟨"List should have at most 100 items", rfl⟩
    · rw [if_neg hlen]
      obtain ⟨m', hm'⟩ := mapM_validate_err raws r m hr herr
      rw [hm']
      exact ⟨m', rfl⟩
  · intro tenant project now okAt uuids q raws k hall h1 h100 hbefore hfail hk
    obtain ⟨events, hev, helen⟩ := mapM_validate_ok raws hall
    obtain ⟨q', msg, heq, hql⟩ :=
      batchLoop_transport_fail tenant project now okAt uuids events k 0 q []
        (fun j hj => by simpa using hbefore j hj)
        (by simpa using hfail)
        (by omega)
    refine ⟨q', msg, ?_, hql⟩
    simp only [ingest_events_batch, validateBatch]
    rw [if_neg (by omega), if_neg (by omega), hev]
    exact heq

/-- Witness for C4 at concrete batches of size 0, 101, 100, an invalid
element, and a broker outage at the first enqueue. -/
theorem claim4_witness :
    ingest_events_batch "T" "P" "n" (fun _ => true) [] [] [] =
      ([], .error (.validation "List should have at least 1 item")) ∧
    ingest_events_batch "T" "P" "n" (fun _ => true) [] []
        (List.replicate 101 invalidRaw) =
      ([], .error (.validation "List should have at most 100 items")) ∧
    (∃ (q' : List Payload) (ids : List String),
      ingest_events_batch "T" "P" "n" (fun _ => true) [] []
          (List.replicate 100 validRaw) =
        (q', .ok ⟨"accepted", ids.length, ids⟩) ∧
      ids.length = 100 ∧ q'.length = ([] : List Payload).length + 100) ∧
    (∃ msg, ingest_events_batch "T" "P" "n" (fun _ => true) [] [] [invalidRaw] =
      ([], .error (.validation msg))) ∧
    (∃ (q' : List Payload) (msg : String),
      ingest_events_batch "T" "P" "n" (fun _ => false) [] [] [validRaw] =
        (q', .error (.server msg)) ∧
      q'.length = ([] : List Payload).length + 0) :=
  ⟨claim4_batch_boundaries.1 "T" "P" "n" (fun _ => true) [] [],
   claim4_batch_boundaries.2.1 "T" "P" "n" (fun _ => true) [] [] _ (by simp),
   claim4_batch_boundaries.2.2.1 "T" "P" "n" (fun _ => true) [] [] _ (by simp)
     (fun _ => rfl)
     (fun r hr => ⟨{ model := "gpt-4", provider := "openai", tokens_prompt := 1,
                     tokens_completion := 1, latency_ms := 1 },
       by rw [List.eq_of_mem_replicate hr]; rfl⟩),
   claim4_batch_boundaries.2.2.2.1 "T" "P" "n" (fun _ => true) [] [] [invalidRaw]
     invalidRaw "field required" (List.mem_singleton.mpr rfl) rfl,
   claim4_batch_boundaries.2.2.2.2.1 "T" "P" "n" (fun _ => false) [] [] [validRaw] 0
     (fun r hr => ⟨{ model := "gpt-4", provider := "openai", tokens_prompt := 1,
                     tokens_completion := 1, latency_ms := 1 },
       by rw [List.mem_singleton.mp hr]; rfl⟩)
     (by simp) (by simp)
     (fun j hj => absurd hj (Nat.not_lt_zero j)) rfl (by simp)⟩

/-- C6. Cost derivation is the pure function `calculate_cost` of
`(model, tokens_prompt, tokens_completion)`: a model not in the pricing
table prices to exactly 0; a model in the table is charged
`prompt/1000 * prompt_rate + completion/1000 * completion_rate`; and when
`cost_usd` is absent at ingest, `queue_event` fills exactly this value
and still accepts the event (unknown models are never rejected). -/
theorem claim6_cost_derivation :
    (∀ (model : String) (tp tc : Nat),
        pricing.find? (fun p => p.1 == model) = none →
        calculate_cost model tp tc = 0) ∧
    (∀ (model : String) (tp tc : Nat) (entry : String × ℚ × ℚ),
        pricing.find? (fun p => p.1 == model) = some entry →
        calculate_cost model tp tc =
          (tp : ℚ) / 1000 * entry.2.1 + (tc : ℚ) / 1000 * entry.2.2) ∧
    (∀ (ed : EventData) (uuid now : String) (q : List Payload),
        ed.cost_usd = none →
        ∃ e' : EventData,
          queue_event true uuid now q ed = .ok (q ++ [Payload.json e'], e'.id.getD "") ∧
          e'.cost_usd =
            some (calculate_cost ed.model ed.tokens_prompt ed.tokens_completion)) := by
  refine ⟨?_, ?_, ?_⟩
  · intro model tp tc h
    simp [calculate_cost, h]
  · intro model tp tc entry h
    simp [calculate_cost, h]
  · intro ed uuid now q hc
    refine ⟨{ ed with
      cost_usd := some (calculate_cost ed.model ed.tokens_prompt ed.tokens_completion),
      id := some (ed.id.getD uuid), time := some (ed.time.getD now) }, ?_, rfl⟩
    cases hid : ed.id <;> cases ht : ed.time <;>
      simp [queue_event, hc, hid, ht]

/-- Witness for C6 at the unknown-model event (cost fills to exactly 0
and the event is accepted). -/
theorem claim6_witness :
    pricing.find? (fun p => p.1 == "mystery-x") = none ∧
    calculate_cost "mystery-x" 10 10 = 0 ∧
    mysteryEvent.cost_usd = none ∧
    ∃ e' : EventData,
      queue_event true "u-m" "N" [] mysteryEvent = .ok ([Payload.json e'], e'.id.getD "") ∧
      e'.cost_usd = some (calculate_cost "mystery-x" 10 10) :=
  ⟨rfl, (claim6_cost_derivation.1 "mystery-x" 10 10 rfl),
   rfl, (claim6_cost_derivation.2.2 mysteryEvent "u-m" "N" [] rfl)⟩

/-- C7 counterexample: a batch that successfully stores one event
(success count 1) leaves the registered viewer's received messages
unchanged — no tick reaches the Live Update Bus, although a
`notify_event_update` call would have delivered one. -/
theorem claim7_counterexample :
    (process_batch settings c7state settings.redis_queue_batch_size "NOW").2 = 1 ∧
    (process_batch settings c7state settings.redis_queue_batch_size "NOW").1.bus = [[]] ∧
    (process_batch settings c7state settings.redis_queue_batch_size "NOW").1.store = [demoRow] ∧
    notify_event_update [[]] = [["event_update"]] := by
  have h := process_batch_one settings settings.redis_queue_batch_size
    (by norm_num [settings]) [Payload.json demoEvent] (Payload.json demoEvent) rfl
    [] [] [] [[]] [] true "NOW"
  have hc7 : c7state =
      (⟨[Payload.json demoEvent], [], [], [], [[]], [], true⟩ : WorkerState) := rfl
  have hp : process_single_event settings ⟨[], [], [], [], [[]], [], true⟩
      (Payload.json demoEvent) 0 "NOW" =
      (⟨[], [demoRow], [], [], [[]], [], true⟩, true) := by
    rw [pse_json_step]
    simp [attemptWrite, popHealth, store_event, mkRow, demoEvent, demoRow]
  rw [hc7]
  rw [h, hp]
  exact ⟨rfl, rfl, rfl, rfl⟩

/-- C7 amended: the worker never signals the Live Update Bus — after any
`process_batch` run, every registered viewer's received messages are
exactly what they were before; `notify_event_update` is only invoked by
the demo chat endpoint, outside the worker. -/
theorem claim7_worker_never_signals_bus
    (cfg : Settings) (st : WorkerState) (n : Nat) (now : String) :
    (process_batch cfg st n now).1.bus = st.bus := by
  simp only [process_batch]
  rw [batch_fold_bus]

/-- C8. The pydantic model declares `status = "success"`, but the ingest
handler dumps with `exclude_unset=True`, so an omitted `status` never
reaches the queued dict, and the `llm_events.status` column has no
default: the stored row has `status = NULL`, not the declared default
`"success"`. (`has_error` does end up `false`, via the column default.)
This theorem evaluates the whole pipeline at the failing input `c8req`,
whose `status` field is unset. -/
theorem claim8_status_stored_null :
    c8req.status = none ∧
    EventRequest.status_declared_default = "success" ∧
    (c8pipeline.1.store.map fun r => (r.status, r.has_error, r.pii_detected)) =
      [(none, false, false)] ∧
    c8pipeline.2 = 1 := by
  have hin : (ingest_event "T" "P" true "u-c8" "2024-01-01T00:00:00+00:00" [] c8req).1
      = [Payload.json c8event] := by
    simp [ingest_event, dumpRequest, queue_event, c8req, c8event, calculate_cost, pricing]
    norm_num
  have h := process_batch_one settings settings.redis_queue_batch_size
    (by norm_num [settings]) _ (Payload.json c8event) hin
    [] [] [] [] [] true "2024-01-01T00:00:05+00:00"
  have hp : process_single_event settings ⟨[], [], [], [], [], [], true⟩
      (Payload.json c8event) 0 "2024-01-01T00:00:05+00:00" =
      (⟨[], [c8row], [], [], [], [], true⟩, true) := by
    rw [pse_json_step]
    simp [attemptWrite, popHealth, store_event, mkRow, c8event, c8row]
  refine ⟨rfl, rfl, ?_, ?_⟩ <;> simp [c8pipeline, h, hp, c8row]

/-- C9. The public ingest request model carries no `id` field — its dump
never has an `id` key — so `queue_event` always assigns the fresh
server-generated UUID; two identical ingest requests get the two distinct
fresh UUIDs as their `event_id`s and produce two distinct queue
entries. -/
theorem claim9_server_assigned_ids
    (req : EventRequest) (tenant project u1 u2 n1 n2 : String)
    (q : List Payload) (h : u1 ≠ u2) :
    (dumpRequest req).id = none ∧
    ∃ e1 e2 : EventData,
      ingest_event tenant project true u1 n1 q req =
        (q ++ [Payload.json e1], .ok ⟨"accepted", u1⟩) ∧
      ingest_event tenant project true u2 n2 (q ++ [Payload.json e1]) req =
        (q ++ [Payload.json e1] ++ [Payload.json e2], .ok ⟨"accepted", u2⟩) ∧
      e1.id = some u1 ∧ e2.id = some u2 ∧
      Payload.json e1 ≠ Payload.json e2 := by
  refine ⟨rfl, ?_⟩
  refine ⟨{ dumpRequest req with
      tenant_id := some tenant, project_id := some project,
      tokens_total := some ((dumpRequest req).tokens_total.getD
        (req.tokens_prompt + req.tokens_completion)),
      cost_usd := some (req.cost_usd.getD
        (calculate_cost req.model req.tokens_prompt req.tokens_completion)),
      id := some u1, time := some (req.time.getD n1) },
    { dumpRequest req with
      tenant_id := some tenant, project_id := some project,
      tokens_total := some ((dumpRequest req).tokens_total.getD
        (req.tokens_prompt + req.tokens_completion)),
      cost_usd := some (req.cost_usd.getD
        (calculate_cost req.model req.tokens_prompt req.tokens_completion)),
      id := some u2, time := some (req.time.getD n2) }, ?_, ?_, rfl, rfl, ?_⟩
  · cases htt : req.tokens_total <;> cases hc : req.cost_usd <;> cases htm : req.time <;>
      simp [ingest_event, dumpRequest, queue_event, htt, hc, htm]
  · cases htt : req.tokens_total <;> cases hc : req.cost_usd <;> cases htm : req.time <;>
      simp [ingest_event, dumpRequest, queue_event, htt, hc, htm]
  · intro hpe
    apply h
    have h12 := Payload.json.inj hpe
    have hid : (some u1 : Option String) = some u2 := congrArg EventData.id h12
    exact Option.some.inj hid

/-- Witness for C9 at the happy-path request with two distinct fresh
UUIDs. -/
theorem claim9_witness :
    (dumpRequest demoReq).id = none ∧
    ∃ e1 e2 : EventData,
      ingest_event "T" "P" true "uuid-a" "n1" [] demoReq =
        ([Payload.json e1], .ok ⟨"accepted", "uuid-a"⟩) ∧
      ingest_event "T" "P" true "uuid-b" "n2" [Payload.json e1] demoReq =
        ([Payload.json e1, Payload.json e2], .ok ⟨"accepted", "uuid-b"⟩) ∧
      e1.id = some "uuid-a" ∧ e2.id = some "uuid-b" ∧
      Payload.json e1 ≠ Payload.json e2 :=
  claim9_server_assigned_ids demoReq "T" "P" "uuid-a" "uuid-b" "n1" "n2" []
    (by decide)
